import Mathlib

/-!
# Verification of swift-ieee-754 (CIEEE754)

Shallow embedding of the C sources under `Sources/CIEEE754`:

* `tls_exceptions.c` — the per-thread software exception store
  (`ThreadExceptionState`, `ieee754_raise_exception`, `ieee754_test_exception`,
  `ieee754_clear_exception`, `ieee754_get_exceptions`,
  `ieee754_clear_all_exceptions`), with the pthread thread-local keying
  embedded as a thread-id-indexed map;
* `fpu_rounding.c` — rounding-mode translation
  (`ieee754_to_fe_round`, `fe_round_to_ieee754`, `ieee754_set_rounding_mode`,
  `ieee754_get_rounding_mode`) with the C99 fenv rounding control embedded as
  explicit `Int` state;
* `signaling_compare.c` — the twelve signaling comparison predicates, with the
  hardware exception status word and the software store passed explicitly.

C `uint8_t` flags that are invariantly 0/1 are embedded as `Bool`; C `int`
results are `Int`; C enums are `Int` constants (so that out-of-range enum
values, which the C switches tolerate, are expressible).
-/

namespace CIEEE754

/-! ## Exception flag identifiers (`include/ieee754_fpu.h`)

`IEEE754ExceptionFlag` is a C enum with values 0..4; it is embedded as `Int`
constants so that values outside the enumerators (which the switches in
`tls_exceptions.c` must tolerate) can be passed. -/

def IEEE754_EXCEPTION_INVALID : Int := 0

def IEEE754_EXCEPTION_DIVBYZERO : Int := 1

def IEEE754_EXCEPTION_OVERFLOW : Int := 2

def IEEE754_EXCEPTION_UNDERFLOW : Int := 3

def IEEE754_EXCEPTION_INEXACT : Int := 4

/-- The `IEEE754Exceptions` struct of `include/ieee754_fpu.h`: five
independent flags, each 0 (false) or 1 (true). -/
structure IEEE754Exceptions where
  invalid : Bool
  divByZero : Bool
  overflow : Bool
  underflow : Bool
  inexact : Bool
deriving DecidableEq

/-- The `ThreadExceptionState` struct of `tls_exceptions.c`: the software
exception store of one thread. -/
structure ThreadExceptionState where
  invalid : Bool
  divByZero : Bool
  overflow : Bool
  underflow : Bool
  inexact : Bool
deriving DecidableEq

/-- `tls_exceptions.c: ieee754_raise_exception` — the switch sets the one
field named by `flag`; an unmatched value falls through the switch and
changes nothing. -/
def ieee754_raise_exception (flag : Int) (state : ThreadExceptionState) :
    ThreadExceptionState :=
  if flag = IEEE754_EXCEPTION_INVALID then { state with invalid := true }
  else if flag = IEEE754_EXCEPTION_DIVBYZERO then { state with divByZero := true }
  else if flag = IEEE754_EXCEPTION_OVERFLOW then { state with overflow := true }
  else if flag = IEEE754_EXCEPTION_UNDERFLOW then { state with underflow := true }
  else if flag = IEEE754_EXCEPTION_INEXACT then { state with inexact := true }
  else state

/-- `tls_exceptions.c: ieee754_test_exception` — returns the addressed field
(0 or 1); the switch default returns 0. -/
def ieee754_test_exception (flag : Int) (state : ThreadExceptionState) : Int :=
  if flag = IEEE754_EXCEPTION_INVALID then (if state.invalid then 1 else 0)
  else if flag = IEEE754_EXCEPTION_DIVBYZERO then (if state.divByZero then 1 else 0)
  else if flag = IEEE754_EXCEPTION_OVERFLOW then (if state.overflow then 1 else 0)
  else if flag = IEEE754_EXCEPTION_UNDERFLOW then (if state.underflow then 1 else 0)
  else if flag = IEEE754_EXCEPTION_INEXACT then (if state.inexact then 1 else 0)
  else 0

/-- `tls_exceptions.c: ieee754_clear_exception` — the switch clears the one
field named by `flag`; an unmatched value falls through and changes nothing. -/
def ieee754_clear_exception (flag : Int) (state : ThreadExceptionState) :
    ThreadExceptionState :=
  if flag = IEEE754_EXCEPTION_INVALID then { state with invalid := false }
  else if flag = IEEE754_EXCEPTION_DIVBYZERO then { state with divByZero := false }
  else if flag = IEEE754_EXCEPTION_OVERFLOW then { state with overflow := false }
  else if flag = IEEE754_EXCEPTION_UNDERFLOW then { state with underflow := false }
  else if flag = IEEE754_EXCEPTION_INEXACT then { state with inexact := false }
  else state

/-- `tls_exceptions.c: ieee754_get_exceptions` — copies the five fields into
an `IEEE754Exceptions` snapshot. -/
def ieee754_get_exceptions (state : ThreadExceptionState) : IEEE754Exceptions :=
  { invalid := state.invalid
    divByZero := state.divByZero
    overflow := state.overflow
    underflow := state.underflow
    inexact := state.inexact }

/-- `tls_exceptions.c: ieee754_clear_all_exceptions` — `memset(state, 0, ...)`:
all five flags become 0. -/
def ieee754_clear_all_exceptions (_state : ThreadExceptionState) :
    ThreadExceptionState :=
  { invalid := false, divByZero := false, overflow := false
    underflow := false, inexact := false }

/-- The zero state that `get_thread_state` lazily `calloc`-creates on a
thread's first access to its store. -/
def initialThreadState : ThreadExceptionState :=
  { invalid := false, divByZero := false, overflow := false
    underflow := false, inexact := false }

/-! ## The pthread thread-local keying of the store (`tls_exceptions.c`)

`pthread_getspecific(exception_key)` yields a per-thread slot; a NULL slot is
lazily replaced by a `calloc`ed zero state. This is embedded as a total map
from thread ids to states in which an untouched thread reads as the zero
state, and every API call acts only on the calling thread's entry. -/

/-- The process-wide thread-local table keyed by `exception_key`: one
`ThreadExceptionState` per thread id. -/
def TLSStore : Type := Nat → ThreadExceptionState

/-- `tls_exceptions.c: get_thread_state`, seen from thread `t`. -/
def get_thread_state (t : Nat) (store : TLSStore) : ThreadExceptionState :=
  store t

/-- `ieee754_raise_exception` executed by thread `t`: only `t`'s slot of the
thread-local table is touched. -/
def raise_exception_at (t : Nat) (flag : Int) (store : TLSStore) : TLSStore :=
  fun u => if u = t then ieee754_raise_exception flag (store u) else store u

/-- `ieee754_clear_exception` executed by thread `t`. -/
def clear_exception_at (t : Nat) (flag : Int) (store : TLSStore) : TLSStore :=
  fun u => if u = t then ieee754_clear_exception flag (store u) else store u

/-- `ieee754_clear_all_exceptions` executed by thread `t`. -/
def clear_all_exceptions_at (t : Nat) (store : TLSStore) : TLSStore :=
  fun u => if u = t then ieee754_clear_all_exceptions (store u) else store u

/-- `ieee754_test_exception` executed by thread `t`: reads only `t`'s slot. -/
def test_exception_at (t : Nat) (flag : Int) (store : TLSStore) : Int :=
  ieee754_test_exception flag (get_thread_state t store)

/-- The table before any thread has raised anything: every slot reads as the
`calloc`ed zero state. -/
def initialTLSStore : TLSStore :=
  fun _ => initialThreadState

/-! ## Rounding control (`fpu_rounding.c`)

`IEEE754RoundingMode` is the four-value C enum of the header. The C99 fenv
rounding-control word is embedded as an `Int`; the `FE_*` constants below use
the x86 glibc values — only their distinctness matters to the code. The
platform's `fesetround` is embedded parametrically in the set of control
values it accepts; a conforming platform accepts exactly the four mapped
constants. -/

inductive IEEE754RoundingMode where
  | IEEE754_ROUND_TONEAREST
  | IEEE754_ROUND_DOWNWARD
  | IEEE754_ROUND_UPWARD
  | IEEE754_ROUND_TOWARDZERO
deriving DecidableEq

def FE_TONEAREST : Int := 0

def FE_DOWNWARD : Int := 1024

def FE_UPWARD : Int := 2048

def FE_TOWARDZERO : Int := 3072

/-- `fpu_rounding.c: ieee754_to_fe_round` — enum to fenv constant. The C
switch's `default: return FE_TONEAREST` arm is unreachable for the four
enumerators, which the Lean match covers exhaustively. -/
def ieee754_to_fe_round : IEEE754RoundingMode → Int
  | .IEEE754_ROUND_TONEAREST => FE_TONEAREST
  | .IEEE754_ROUND_DOWNWARD => FE_DOWNWARD
  | .IEEE754_ROUND_UPWARD => FE_UPWARD
  | .IEEE754_ROUND_TOWARDZERO => FE_TOWARDZERO

/-- `fpu_rounding.c: fe_round_to_ieee754` — fenv constant to enum; any other
native value falls to the switch default, `IEEE754_ROUND_TONEAREST`. -/
def fe_round_to_ieee754 (fe_mode : Int) : IEEE754RoundingMode :=
  if fe_mode = FE_TONEAREST then .IEEE754_ROUND_TONEAREST
  else if fe_mode = FE_DOWNWARD then .IEEE754_ROUND_DOWNWARD
  else if fe_mode = FE_UPWARD then .IEEE754_ROUND_UPWARD
  else if fe_mode = FE_TOWARDZERO then .IEEE754_ROUND_TOWARDZERO
  else .IEEE754_ROUND_TONEAREST

/-- C99 `fesetround` on a platform accepting the control values in
`supported`: on success it installs the value and returns 0, otherwise it
leaves the control word `cur` unchanged and returns non-zero. Result is
(return value, new control word). -/
def fesetround_on (supported : Int → Bool) (fe_mode cur : Int) : Int × Int :=
  if supported fe_mode then (0, fe_mode) else (1, cur)

/-- The control values a conforming C99 platform accepts: exactly the four
defined rounding constants. -/
def conforming_fe_modes (fe_mode : Int) : Bool :=
  fe_mode = FE_TONEAREST || fe_mode = FE_DOWNWARD ||
    fe_mode = FE_UPWARD || fe_mode = FE_TOWARDZERO

/-- `fesetround` of the ambient (conforming) platform. -/
def fesetround (fe_mode cur : Int) : Int × Int :=
  fesetround_on conforming_fe_modes fe_mode cur

/-- C99 `fegetround`: reads the current control word. -/
def fegetround (cur : Int) : Int := cur

/-- `fpu_rounding.c: ieee754_set_rounding_mode` — maps the mode and calls
`fesetround`; result is (return value, new fenv control word). -/
def ieee754_set_rounding_mode (mode : IEEE754RoundingMode) (cur : Int) :
    Int × Int :=
  fesetround (ieee754_to_fe_round mode) cur

/-- `ieee754_set_rounding_mode` on an arbitrary platform (for the statement
that failure happens exactly when the platform rejects the mapped value). -/
def ieee754_set_rounding_mode_on (supported : Int → Bool)
    (mode : IEEE754RoundingMode) (cur : Int) : Int × Int :=
  fesetround_on supported (ieee754_to_fe_round mode) cur

/-- `fpu_rounding.c: ieee754_get_rounding_mode` — reads the fenv control word
and maps it back. -/
def ieee754_get_rounding_mode (cur : Int) : IEEE754RoundingMode :=
  fe_round_to_ieee754 (fegetround cur)

/-! ## Floating-point operands (`signaling_compare.c`)

The comparators inspect an operand only through `isnan` and the six C
comparison operators, and on non-NaN IEEE data those operators induce the
standard order on extended reals with `-0 == +0`. An operand of either width
(binary64 `double` or binary32 `float`) is therefore embedded as either a NaN
(carrying its quiet/signaling bit, which `isnan` ignores) or a numeric datum:
minus infinity, a finite value `q : ℚ` (both zeros collapse to `0`, as C
comparison treats them), or plus infinity. -/

/-- A non-NaN IEEE 754 datum: an extended rational. -/
inductive FPNum where
  | negInf : FPNum
  | num : ℚ → FPNum
  | posInf : FPNum
deriving DecidableEq

/-- An IEEE 754 datum of either width. -/
inductive FP where
  | nan : Bool → FP
  | fin : FPNum → FP
deriving DecidableEq

/-- C99 `isnan`: true for quiet and signaling NaN alike. -/
def FP.isnan : FP → Bool
  | .nan _ => true
  | .fin _ => false

/-- The C `<` on non-NaN IEEE data. -/
def FPNum.c_lt : FPNum → FPNum → Bool
  | .negInf, .negInf => false
  | .negInf, .num _ => true
  | .negInf, .posInf => true
  | .num _, .negInf => false
  | .num q, .num r => decide (q < r)
  | .num _, .posInf => true
  | .posInf, _ => false

/-- The C `<=` on non-NaN IEEE data. -/
def FPNum.c_le : FPNum → FPNum → Bool
  | .negInf, _ => true
  | .num _, .negInf => false
  | .num q, .num r => decide (q ≤ r)
  | .num _, .posInf => true
  | .posInf, .posInf => true
  | .posInf, _ => false

/-- The C `==` on non-NaN IEEE data. -/
def FPNum.c_eq : FPNum → FPNum → Bool
  | .negInf, .negInf => true
  | .num q, .num r => decide (q = r)
  | .posInf, .posInf => true
  | _, _ => false

/-- The C `==` on either width: false whenever either operand is NaN. -/
def FP.c_eq : FP → FP → Bool
  | .fin a, .fin b => FPNum.c_eq a b
  | _, _ => false

/-- The C `<` on either width: false whenever either operand is NaN. -/
def FP.c_lt : FP → FP → Bool
  | .fin a, .fin b => FPNum.c_lt a b
  | _, _ => false

/-- The C `<=` on either width: false whenever either operand is NaN. -/
def FP.c_le : FP → FP → Bool
  | .fin a, .fin b => FPNum.c_le a b
  | _, _ => false

/-- The C `>` on either width. -/
def FP.c_gt (x y : FP) : Bool := FP.c_lt y x

/-- The C `>=` on either width. -/
def FP.c_ge (x y : FP) : Bool := FP.c_le y x

/-- The C `!=` on either width: true whenever either operand is NaN. -/
def FP.c_ne (x y : FP) : Bool := !FP.c_eq x y

/-- C99 `feraiseexcept(FE_INVALID)`: sets the invalid flag of the hardware
FPU exception status word, embedded as an `IEEE754Exceptions` record
(`fpu_exceptions.c` reads it field by field through `fetestexcept`). -/
def feraiseexcept_FE_INVALID (hw : IEEE754Exceptions) : IEEE754Exceptions :=
  { hw with invalid := true }

/-- The mutable state a signaling comparator can touch: the hardware FPU
exception status word and the calling thread's software store. -/
structure FPEnv where
  hw : IEEE754Exceptions
  sw : ThreadExceptionState
deriving DecidableEq

/-- The state after the NaN branch of any comparator: `feraiseexcept`
on the hardware word, `ieee754_raise_exception(IEEE754_EXCEPTION_INVALID)`
on the software store. -/
def raiseInvalidEnv (st : FPEnv) : FPEnv :=
  { hw := feraiseexcept_FE_INVALID st.hw
    sw := ieee754_raise_exception IEEE754_EXCEPTION_INVALID st.sw }

/-- `signaling_compare.c: ieee754_signaling_equal` (binary64). -/
def ieee754_signaling_equal (x y : FP) (st : FPEnv) : Int × FPEnv :=
  if x.isnan || y.isnan then (0, raiseInvalidEnv st)
  else ((if FP.c_eq x y then 1 else 0), st)

/-- `signaling_compare.c: ieee754_signaling_less` (binary64). -/
def ieee754_signaling_less (x y : FP) (st : FPEnv) : Int × FPEnv :=
  if x.isnan || y.isnan then (0, raiseInvalidEnv st)
  else ((if FP.c_lt x y then 1 else 0), st)

/-- `signaling_compare.c: ieee754_signaling_less_equal` (binary64). -/
def ieee754_signaling_less_equal (x y : FP) (st : FPEnv) : Int × FPEnv :=
  if x.isnan || y.isnan then (0, raiseInvalidEnv st)
  else ((if FP.c_le x y then 1 else 0), st)

/-- `signaling_compare.c: ieee754_signaling_greater` (binary64). -/
def ieee754_signaling_greater (x y : FP) (st : FPEnv) : Int × FPEnv :=
  if x.isnan || y.isnan then (0, raiseInvalidEnv st)
  else ((if FP.c_gt x y then 1 else 0), st)

/-- `signaling_compare.c: ieee754_signaling_greater_equal` (binary64). -/
def ieee754_signaling_greater_equal (x y : FP) (st : FPEnv) : Int × FPEnv :=
  if x.isnan || y.isnan then (0, raiseInvalidEnv st)
  else ((if FP.c_ge x y then 1 else 0), st)

/-- `signaling_compare.c: ieee754_signaling_not_equal` (binary64): returns 1
on NaN operands. -/
def ieee754_signaling_not_equal (x y : FP) (st : FPEnv) : Int × FPEnv :=
  if x.isnan || y.isnan then (1, raiseInvalidEnv st)
  else ((if FP.c_ne x y then 1 else 0), st)

/-- `signaling_compare.c: ieee754_signaling_equal_f` (binary32; the body is
the C double body verbatim at the narrower type). -/
def ieee754_signaling_equal_f (x y : FP) (st : FPEnv) : Int × FPEnv :=
  if x.isnan || y.isnan then (0, raiseInvalidEnv st)
  else ((if FP.c_eq x y then 1 else 0), st)

/-- `signaling_compare.c: ieee754_signaling_less_f` (binary32). -/
def ieee754_signaling_less_f (x y : FP) (st : FPEnv) : Int × FPEnv :=
  if x.isnan || y.isnan then (0, raiseInvalidEnv st)
  else ((if FP.c_lt x y then 1 else 0), st)

/-- `signaling_compare.c: ieee754_signaling_less_equal_f` (binary32). -/
def ieee754_signaling_less_equal_f (x y : FP) (st : FPEnv) : Int × FPEnv :=
  if x.isnan || y.isnan then (0, raiseInvalidEnv st)
  else ((if FP.c_le x y then 1 else 0), st)

/-- `signaling_compare.c: ieee754_signaling_greater_f` (binary32). -/
def ieee754_signaling_greater_f (x y : FP) (st : FPEnv) : Int × FPEnv :=
  if x.isnan || y.isnan then (0, raiseInvalidEnv st)
  else ((if FP.c_gt x y then 1 else 0), st)

/-- `signaling_compare.c: ieee754_signaling_greater_equal_f` (binary32). -/
def ieee754_signaling_greater_equal_f (x y : FP) (st : FPEnv) : Int × FPEnv :=
  if x.isnan || y.isnan then (0, raiseInvalidEnv st)
  else ((if FP.c_ge x y then 1 else 0), st)

/-- `signaling_compare.c: ieee754_signaling_not_equal_f` (binary32). -/
def ieee754_signaling_not_equal_f (x y : FP) (st : FPEnv) : Int × FPEnv :=
  if x.isnan || y.isnan then (1, raiseInvalidEnv st)
  else ((if FP.c_ne x y then 1 else 0), st)

/-- All twelve signaling comparators, both widths. -/
def comparators : List (FP → FP → FPEnv → Int × FPEnv) :=
  [ieee754_signaling_equal, ieee754_signaling_less,
   ieee754_signaling_less_equal, ieee754_signaling_greater,
   ieee754_signaling_greater_equal, ieee754_signaling_not_equal,
   ieee754_signaling_equal_f, ieee754_signaling_less_f,
   ieee754_signaling_less_equal_f, ieee754_signaling_greater_f,
   ieee754_signaling_greater_equal_f, ieee754_signaling_not_equal_f]

/-- Spec-side reading of a non-NaN datum as an extended rational, the order
in which the spec's "natural numeric comparison result" is read. -/
def FPNum.toE : FPNum → WithBot (WithTop ℚ)
  | .negInf => ⊥
  | .num q => ((q : WithTop ℚ) : WithBot (WithTop ℚ))
  | .posInf => ((⊤ : WithTop ℚ) : WithBot (WithTop ℚ))

/-! ## Helper lemmas -/

theorem FPNum.c_eq_iff_toE (a b : FPNum) : c_eq a b = true ↔ a.toE = b.toE := by
  cases a <;> cases b <;>
    simp [FPNum.c_eq, FPNum.toE]

theorem FPNum.c_lt_iff_toE (a b : FPNum) : c_lt a b = true ↔ a.toE < b.toE := by
  cases a <;> cases b <;>
    simp [FPNum.c_lt, FPNum.toE, lt_top_iff_ne_top]

theorem FPNum.c_le_iff_toE (a b : FPNum) : c_le a b = true ↔ a.toE ≤ b.toE := by
  cases a <;> cases b <;>
    simp [FPNum.c_le, FPNum.toE]

theorem ite_int_eq_one (c : Bool) :
    ((if c then (1 : Int) else 0) = 1) ↔ c = true := by
  cases c <;> simp

theorem FPNum.c_eq_false_iff_toE (a b : FPNum) :
    c_eq a b = false ↔ ¬ a.toE = b.toE := by
  rw [← c_eq_iff_toE]
  cases c_eq a b <;> simp

/-- A concrete comparator environment: cleared hardware status word, zero
software store. -/
def env0 : FPEnv :=
  { hw := { invalid := false, divByZero := false, overflow := false
            underflow := false, inexact := false }
    sw := initialThreadState }

/-! ## Claims -/

/-- C4: for each of the four rounding modes `m`, `setRoundingMode(m)` followed
immediately by `getRoundingMode()` returns `m`; the enum-to-native and
native-to-enum maps are mutually inverse on the four defined modes and the
four mapped native constants. -/
theorem rounding_mode_round_trip (m : IEEE754RoundingMode) (cur : Int) :
    ieee754_get_rounding_mode (ieee754_set_rounding_mode m cur).2 = m ∧
    fe_round_to_ieee754 (ieee754_to_fe_round m) = m ∧
    ieee754_to_fe_round (fe_round_to_ieee754 FE_TONEAREST) = FE_TONEAREST ∧
    ieee754_to_fe_round (fe_round_to_ieee754 FE_DOWNWARD) = FE_DOWNWARD ∧
    ieee754_to_fe_round (fe_round_to_ieee754 FE_UPWARD) = FE_UPWARD ∧
    ieee754_to_fe_round (fe_round_to_ieee754 FE_TOWARDZERO) = FE_TOWARDZERO := by
  cases m <;>
    simp [ieee754_get_rounding_mode, ieee754_set_rounding_mode, fesetround,
      fesetround_on, conforming_fe_modes, fegetround, fe_round_to_ieee754,
      ieee754_to_fe_round, FE_TONEAREST, FE_DOWNWARD, FE_UPWARD, FE_TOWARDZERO]

/-- C5: for every native rounding-control value outside the four mapped
constants, `getRoundingMode` returns `ToNearestEven` (the switch default)
rather than failing; totality onto the four defined enumeration values is
enforced by the return type `IEEE754RoundingMode`, which has exactly those
four constructors. -/
theorem get_rounding_mode_fallback (fe : Int)
    (h : fe ≠ FE_TONEAREST ∧ fe ≠ FE_DOWNWARD ∧ fe ≠ FE_UPWARD ∧
      fe ≠ FE_TOWARDZERO) :
    ieee754_get_rounding_mode fe = .IEEE754_ROUND_TONEAREST := by
  obtain ⟨h1, h2, h3, h4⟩ := h
  simp [ieee754_get_rounding_mode, fegetround, fe_round_to_ieee754, h1, h2, h3, h4]

/-- C5 witness at the unmapped native value 7. -/
theorem get_rounding_mode_fallback_witness :
    ((7 : Int) ≠ FE_TONEAREST ∧ (7 : Int) ≠ FE_DOWNWARD ∧
      (7 : Int) ≠ FE_UPWARD ∧ (7 : Int) ≠ FE_TOWARDZERO) ∧
    ieee754_get_rounding_mode 7 = .IEEE754_ROUND_TONEAREST :=
  ⟨by decide, get_rounding_mode_fallback 7 (by decide)⟩

/-- C6: `setRoundingMode` reports failure (non-zero) exactly when the platform
rejects the mapped native constant, and on the ambient conforming platform it
returns 0 for every defined mode. -/
theorem set_rounding_mode_error_iff (supported : Int → Bool)
    (m : IEEE754RoundingMode) (cur : Int) :
    ((ieee754_set_rounding_mode_on supported m cur).1 = 0 ↔
      supported (ieee754_to_fe_round m) = true) ∧
    (ieee754_set_rounding_mode m cur).1 = 0 := by
  constructor
  · cases h : supported (ieee754_to_fe_round m) <;>
      simp [ieee754_set_rounding_mode_on, fesetround_on, h]
  · cases m <;>
      simp [ieee754_set_rounding_mode, fesetround, fesetround_on,
        conforming_fe_modes, ieee754_to_fe_round,
        FE_TONEAREST, FE_DOWNWARD, FE_UPWARD, FE_TOWARDZERO]

/-- C7: for every defined flag identifier and every software-store state,
raising twice equals raising once; and clearing a flag that is already clear
leaves the store unchanged. -/
theorem raise_clear_idempotent (f : Int)
    (hf : f = 0 ∨ f = 1 ∨ f = 2 ∨ f = 3 ∨ f = 4)
    (s : ThreadExceptionState) :
    ieee754_raise_exception f (ieee754_raise_exception f s) =
      ieee754_raise_exception f s ∧
    (ieee754_test_exception f s = 0 → ieee754_clear_exception f s = s) := by
  obtain ⟨i, d, o, u, x⟩ := s
  rcases hf with rfl | rfl | rfl | rfl | rfl <;>
    exact ⟨by simp [ieee754_raise_exception, IEEE754_EXCEPTION_INVALID,
        IEEE754_EXCEPTION_DIVBYZERO, IEEE754_EXCEPTION_OVERFLOW,
        IEEE754_EXCEPTION_UNDERFLOW, IEEE754_EXCEPTION_INEXACT],
      fun hs => by
        simp_all [ieee754_clear_exception, ieee754_test_exception,
          IEEE754_EXCEPTION_INVALID, IEEE754_EXCEPTION_DIVBYZERO,
          IEEE754_EXCEPTION_OVERFLOW, IEEE754_EXCEPTION_UNDERFLOW,
          IEEE754_EXCEPTION_INEXACT]⟩

/-- C7 witness: flag `DivByZero` on a store in which it is already set, the
case where raise-idempotence is not covered by starting from a clear flag. -/
theorem raise_clear_idempotent_witness :
    ((1 : Int) = 0 ∨ (1 : Int) = 1 ∨ (1 : Int) = 2 ∨ (1 : Int) = 3 ∨
      (1 : Int) = 4) ∧
    (ieee754_raise_exception 1
        (ieee754_raise_exception 1
          { invalid := false, divByZero := true, overflow := true
            underflow := false, inexact := false }) =
      ieee754_raise_exception 1
        { invalid := false, divByZero := true, overflow := true
          underflow := false, inexact := false } ∧
     (ieee754_test_exception 1
          { invalid := false, divByZero := true, overflow := true
            underflow := false, inexact := false } = 0 →
       ieee754_clear_exception 1
          { invalid := false, divByZero := true, overflow := true
            underflow := false, inexact := false } =
        { invalid := false, divByZero := true, overflow := true
          underflow := false, inexact := false })) :=
  ⟨by decide,
    raise_clear_idempotent 1 (by decide)
      { invalid := false, divByZero := true, overflow := true
        underflow := false, inexact := false }⟩

/-- C8: `raise(f)` sets exactly flag `f` and leaves every other defined flag
unchanged; `clearAll(); raise(DivByZero); getAll()` yields the snapshot with
only `divByZero` set; `clearAll` yields the all-false store. -/
theorem raise_sets_exactly (f g : Int)
    (hf : f = 0 ∨ f = 1 ∨ f = 2 ∨ f = 3 ∨ f = 4)
    (hg : g = 0 ∨ g = 1 ∨ g = 2 ∨ g = 3 ∨ g = 4)
    (hne : g ≠ f) (s : ThreadExceptionState) :
    ieee754_test_exception f (ieee754_raise_exception f s) = 1 ∧
    ieee754_test_exception g (ieee754_raise_exception f s) =
      ieee754_test_exception g s ∧
    ieee754_get_exceptions
        (ieee754_raise_exception IEEE754_EXCEPTION_DIVBYZERO
          (ieee754_clear_all_exceptions s)) =
      { invalid := false, divByZero := true, overflow := false
        underflow := false, inexact := false } ∧
    ieee754_clear_all_exceptions s = initialThreadState := by
  rcases hf with rfl | rfl | rfl | rfl | rfl <;>
    rcases hg with rfl | rfl | rfl | rfl | rfl <;>
      simp_all [ieee754_raise_exception, ieee754_test_exception,
        ieee754_get_exceptions, ieee754_clear_all_exceptions,
        initialThreadState, IEEE754_EXCEPTION_INVALID,
        IEEE754_EXCEPTION_DIVBYZERO, IEEE754_EXCEPTION_OVERFLOW,
        IEEE754_EXCEPTION_UNDERFLOW, IEEE754_EXCEPTION_INEXACT]

/-- C8 witness: raise `DivByZero`, observe `Invalid` untouched, on a store
with `invalid` already set. -/
theorem raise_sets_exactly_witness :
    ((1 : Int) = 0 ∨ (1 : Int) = 1 ∨ (1 : Int) = 2 ∨ (1 : Int) = 3 ∨
      (1 : Int) = 4) ∧
    ((0 : Int) = 0 ∨ (0 : Int) = 1 ∨ (0 : Int) = 2 ∨ (0 : Int) = 3 ∨
      (0 : Int) = 4) ∧
    (0 : Int) ≠ 1 ∧
    (ieee754_test_exception 1
        (ieee754_raise_exception 1
          { invalid := true, divByZero := false, overflow := true
            underflow := false, inexact := false }) = 1 ∧
     ieee754_test_exception 0
        (ieee754_raise_exception 1
          { invalid := true, divByZero := false, overflow := true
            underflow := false, inexact := false }) =
       ieee754_test_exception 0
          { invalid := true, divByZero := false, overflow := true
            underflow := false, inexact := false } ∧
     ieee754_get_exceptions
        (ieee754_raise_exception IEEE754_EXCEPTION_DIVBYZERO
          (ieee754_clear_all_exceptions
            { invalid := true, divByZero := false, overflow := true
              underflow := false, inexact := false })) =
      { invalid := false, divByZero := true, overflow := false
        underflow := false, inexact := false } ∧
     ieee754_clear_all_exceptions
        { invalid := true, divByZero := false, overflow := true
          underflow := false, inexact := false } = initialThreadState) :=
  ⟨by decide, by decide, by decide,
    raise_sets_exactly 1 0 (by decide) (by decide) (by decide)
      { invalid := true, divByZero := false, overflow := true
        underflow := false, inexact := false }⟩

/-- C10: for every integer flag value outside the five defined identifiers
0..4, `test` returns 0 and `raise` and `clear` leave the store unchanged. -/
theorem undefined_flag_inert (f : Int)
    (hf : f ≠ 0 ∧ f ≠ 1 ∧ f ≠ 2 ∧ f ≠ 3 ∧ f ≠ 4)
    (s : ThreadExceptionState) :
    ieee754_test_exception f s = 0 ∧
    ieee754_raise_exception f s = s ∧
    ieee754_clear_exception f s = s := by
  obtain ⟨h0, h1, h2, h3, h4⟩ := hf
  simp [ieee754_test_exception, ieee754_raise_exception,
    ieee754_clear_exception, IEEE754_EXCEPTION_INVALID,
    IEEE754_EXCEPTION_DIVBYZERO, IEEE754_EXCEPTION_OVERFLOW,
    IEEE754_EXCEPTION_UNDERFLOW, IEEE754_EXCEPTION_INEXACT,
    h0, h1, h2, h3, h4]

/-- C10 witness at the out-of-range flag value 5 on a store with flags set. -/
theorem undefined_flag_inert_witness :
    ((5 : Int) ≠ 0 ∧ (5 : Int) ≠ 1 ∧ (5 : Int) ≠ 2 ∧ (5 : Int) ≠ 3 ∧
      (5 : Int) ≠ 4) ∧
    (ieee754_test_exception 5
        { invalid := true, divByZero := true, overflow := false
          underflow := false, inexact := true } = 0 ∧
     ieee754_raise_exception 5
        { invalid := true, divByZero := true, overflow := false
          underflow := false, inexact := true } =
       { invalid := true, divByZero := true, overflow := false
         underflow := false, inexact := true } ∧
     ieee754_clear_exception 5
        { invalid := true, divByZero := true, overflow := false
          underflow := false, inexact := true } =
       { invalid := true, divByZero := true, overflow := false
         underflow := false, inexact := true }) :=
  ⟨by decide,
    undefined_flag_inert 5 (by decide)
      { invalid := true, divByZero := true, overflow := false
        underflow := false, inexact := true }⟩

/-- C1: on either width, whenever either operand is NaN (quiet or signaling),
the signaling comparators return the IEEE-754 unordered result: `eq`, `lt`,
`le`, `gt`, `ge` return 0 and `ne` returns 1. -/
theorem nan_comparisons_unordered (x y : FP) (st : FPEnv)
    (hn : (x.isnan || y.isnan) = true) :
    (ieee754_signaling_equal x y st).1 = 0 ∧
    (ieee754_signaling_less x y st).1 = 0 ∧
    (ieee754_signaling_less_equal x y st).1 = 0 ∧
    (ieee754_signaling_greater x y st).1 = 0 ∧
    (ieee754_signaling_greater_equal x y st).1 = 0 ∧
    (ieee754_signaling_not_equal x y st).1 = 1 ∧
    (ieee754_signaling_equal_f x y st).1 = 0 ∧
    (ieee754_signaling_less_f x y st).1 = 0 ∧
    (ieee754_signaling_less_equal_f x y st).1 = 0 ∧
    (ieee754_signaling_greater_f x y st).1 = 0 ∧
    (ieee754_signaling_greater_equal_f x y st).1 = 0 ∧
    (ieee754_signaling_not_equal_f x y st).1 = 1 := by
  simp [ieee754_signaling_equal, ieee754_signaling_less,
    ieee754_signaling_less_equal, ieee754_signaling_greater,
    ieee754_signaling_greater_equal, ieee754_signaling_not_equal,
    ieee754_signaling_equal_f, ieee754_signaling_less_f,
    ieee754_signaling_less_equal_f, ieee754_signaling_greater_f,
    ieee754_signaling_greater_equal_f, ieee754_signaling_not_equal_f, hn]

/-- C1 witness: a signaling NaN against the finite operand 1. -/
theorem nan_comparisons_unordered_witness :
    ((FP.nan true).isnan || (FP.fin (FPNum.num 1)).isnan) = true ∧
    ((ieee754_signaling_equal (FP.nan true) (FP.fin (FPNum.num 1)) env0).1 = 0 ∧
     (ieee754_signaling_less (FP.nan true) (FP.fin (FPNum.num 1)) env0).1 = 0 ∧
     (ieee754_signaling_less_equal (FP.nan true) (FP.fin (FPNum.num 1)) env0).1 = 0 ∧
     (ieee754_signaling_greater (FP.nan true) (FP.fin (FPNum.num 1)) env0).1 = 0 ∧
     (ieee754_signaling_greater_equal (FP.nan true) (FP.fin (FPNum.num 1)) env0).1 = 0 ∧
     (ieee754_signaling_not_equal (FP.nan true) (FP.fin (FPNum.num 1)) env0).1 = 1 ∧
     (ieee754_signaling_equal_f (FP.nan true) (FP.fin (FPNum.num 1)) env0).1 = 0 ∧
     (ieee754_signaling_less_f (FP.nan true) (FP.fin (FPNum.num 1)) env0).1 = 0 ∧
     (ieee754_signaling_less_equal_f (FP.nan true) (FP.fin (FPNum.num 1)) env0).1 = 0 ∧
     (ieee754_signaling_greater_f (FP.nan true) (FP.fin (FPNum.num 1)) env0).1 = 0 ∧
     (ieee754_signaling_greater_equal_f (FP.nan true) (FP.fin (FPNum.num 1)) env0).1 = 0 ∧
     (ieee754_signaling_not_equal_f (FP.nan true) (FP.fin (FPNum.num 1)) env0).1 = 1) :=
  ⟨by decide,
    nan_comparisons_unordered (FP.nan true) (FP.fin (FPNum.num 1)) env0 (by decide)⟩

/-- C2: any of the twelve comparators, called with a NaN operand on a freshly
cleared software store, leaves exactly the software `Invalid` flag set (the
other four still 0) and sets the hardware invalid flag. -/
theorem nan_raises_invalid_once
    (P : FP → FP → FPEnv → Int × FPEnv) (hP : P ∈ comparators)
    (x y : FP) (hn : (x.isnan || y.isnan) = true)
    (hw0 : IEEE754Exceptions) (s0 : ThreadExceptionState) :
    ieee754_test_exception IEEE754_EXCEPTION_INVALID
        (P x y { hw := hw0, sw := ieee754_clear_all_exceptions s0 }).2.sw = 1 ∧
    ieee754_test_exception IEEE754_EXCEPTION_DIVBYZERO
        (P x y { hw := hw0, sw := ieee754_clear_all_exceptions s0 }).2.sw = 0 ∧
    ieee754_test_exception IEEE754_EXCEPTION_OVERFLOW
        (P x y { hw := hw0, sw := ieee754_clear_all_exceptions s0 }).2.sw = 0 ∧
    ieee754_test_exception IEEE754_EXCEPTION_UNDERFLOW
        (P x y { hw := hw0, sw := ieee754_clear_all_exceptions s0 }).2.sw = 0 ∧
    ieee754_test_exception IEEE754_EXCEPTION_INEXACT
        (P x y { hw := hw0, sw := ieee754_clear_all_exceptions s0 }).2.sw = 0 ∧
    (P x y { hw := hw0, sw := ieee754_clear_all_exceptions s0 }).2.hw.invalid
        = true := by
  simp only [comparators, List.mem_cons, List.not_mem_nil, or_false] at hP
  rcases hP with rfl | rfl | rfl | rfl | rfl | rfl | rfl | rfl | rfl | rfl | rfl | rfl <;>
    simp [ieee754_signaling_equal, ieee754_signaling_less,
      ieee754_signaling_less_equal, ieee754_signaling_greater,
      ieee754_signaling_greater_equal, ieee754_signaling_not_equal,
      ieee754_signaling_equal_f, ieee754_signaling_less_f,
      ieee754_signaling_less_equal_f, ieee754_signaling_greater_f,
      ieee754_signaling_greater_equal_f, ieee754_signaling_not_equal_f,
      hn, raiseInvalidEnv, feraiseexcept_FE_INVALID, ieee754_raise_exception,
      ieee754_clear_all_exceptions, ieee754_test_exception,
      IEEE754_EXCEPTION_INVALID, IEEE754_EXCEPTION_DIVBYZERO,
      IEEE754_EXCEPTION_OVERFLOW, IEEE754_EXCEPTION_UNDERFLOW,
      IEEE754_EXCEPTION_INEXACT]

/-- C2 witness: `ieee754_signaling_less` on (2, quiet NaN) from a store with
all flags previously set (so `clearAll` is exercised) and a cleared hardware
word. -/
theorem nan_raises_invalid_once_witness :
    ieee754_signaling_less ∈ comparators ∧
    ((FP.fin (FPNum.num 2)).isnan || (FP.nan false).isnan) = true ∧
    (ieee754_test_exception IEEE754_EXCEPTION_INVALID
        (ieee754_signaling_less (FP.fin (FPNum.num 2)) (FP.nan false)
          { hw := env0.hw
            sw := ieee754_clear_all_exceptions
              { invalid := true, divByZero := true, overflow := true
                underflow := true, inexact := true } }).2.sw = 1 ∧
     ieee754_test_exception IEEE754_EXCEPTION_DIVBYZERO
        (ieee754_signaling_less (FP.fin (FPNum.num 2)) (FP.nan false)
          { hw := env0.hw
            sw := ieee754_clear_all_exceptions
              { invalid := true, divByZero := true, overflow := true
                underflow := true, inexact := true } }).2.sw = 0 ∧
     ieee754_test_exception IEEE754_EXCEPTION_OVERFLOW
        (ieee754_signaling_less (FP.fin (FPNum.num 2)) (FP.nan false)
          { hw := env0.hw
            sw := ieee754_clear_all_exceptions
              { invalid := true, divByZero := true, overflow := true
                underflow := true, inexact := true } }).2.sw = 0 ∧
     ieee754_test_exception IEEE754_EXCEPTION_UNDERFLOW
        (ieee754_signaling_less (FP.fin (FPNum.num 2)) (FP.nan false)
          { hw := env0.hw
            sw := ieee754_clear_all_exceptions
              { invalid := true, divByZero := true, overflow := true
                underflow := true, inexact := true } }).2.sw = 0 ∧
     ieee754_test_exception IEEE754_EXCEPTION_INEXACT
        (ieee754_signaling_less (FP.fin (FPNum.num 2)) (FP.nan false)
          { hw := env0.hw
            sw := ieee754_clear_all_exceptions
              { invalid := true, divByZero := true, overflow := true
                underflow := true, inexact := true } }).2.sw = 0 ∧
     (ieee754_signaling_less (FP.fin (FPNum.num 2)) (FP.nan false)
          { hw := env0.hw
            sw := ieee754_clear_all_exceptions
              { invalid := true, divByZero := true, overflow := true
                underflow := true, inexact := true } }).2.hw.invalid = true) :=
  ⟨by simp [comparators], by decide,
    nan_raises_invalid_once ieee754_signaling_less (by simp [comparators])
      (FP.fin (FPNum.num 2)) (FP.nan false) (by decide) env0.hw
      { invalid := true, divByZero := true, overflow := true
        underflow := true, inexact := true }⟩

/-- C3: on either width, when neither operand is NaN every comparator leaves
the whole exception environment (hardware word and software store) unchanged,
and its result is the natural numeric comparison of the operands read as
extended rationals. -/
theorem non_nan_compare_pure (a b : FPNum) (st : FPEnv) :
    ((ieee754_signaling_equal (.fin a) (.fin b) st).2 = st ∧
     (ieee754_signaling_less (.fin a) (.fin b) st).2 = st ∧
     (ieee754_signaling_less_equal (.fin a) (.fin b) st).2 = st ∧
     (ieee754_signaling_greater (.fin a) (.fin b) st).2 = st ∧
     (ieee754_signaling_greater_equal (.fin a) (.fin b) st).2 = st ∧
     (ieee754_signaling_not_equal (.fin a) (.fin b) st).2 = st ∧
     (ieee754_signaling_equal_f (.fin a) (.fin b) st).2 = st ∧
     (ieee754_signaling_less_f (.fin a) (.fin b) st).2 = st ∧
     (ieee754_signaling_less_equal_f (.fin a) (.fin b) st).2 = st ∧
     (ieee754_signaling_greater_f (.fin a) (.fin b) st).2 = st ∧
     (ieee754_signaling_greater_equal_f (.fin a) (.fin b) st).2 = st ∧
     (ieee754_signaling_not_equal_f (.fin a) (.fin b) st).2 = st) ∧
    (((ieee754_signaling_equal (.fin a) (.fin b) st).1 = 1 ↔ a.toE = b.toE) ∧
     ((ieee754_signaling_less (.fin a) (.fin b) st).1 = 1 ↔ a.toE < b.toE) ∧
     ((ieee754_signaling_less_equal (.fin a) (.fin b) st).1 = 1 ↔
        a.toE ≤ b.toE) ∧
     ((ieee754_signaling_greater (.fin a) (.fin b) st).1 = 1 ↔
        b.toE < a.toE) ∧
     ((ieee754_signaling_greater_equal (.fin a) (.fin b) st).1 = 1 ↔
        b.toE ≤ a.toE) ∧
     ((ieee754_signaling_not_equal (.fin a) (.fin b) st).1 = 1 ↔
        ¬ a.toE = b.toE) ∧
     ((ieee754_signaling_equal_f (.fin a) (.fin b) st).1 = 1 ↔
        a.toE = b.toE) ∧
     ((ieee754_signaling_less_f (.fin a) (.fin b) st).1 = 1 ↔
        a.toE < b.toE) ∧
     ((ieee754_signaling_less_equal_f (.fin a) (.fin b) st).1 = 1 ↔
        a.toE ≤ b.toE) ∧
     ((ieee754_signaling_greater_f (.fin a) (.fin b) st).1 = 1 ↔
        b.toE < a.toE) ∧
     ((ieee754_signaling_greater_equal_f (.fin a) (.fin b) st).1 = 1 ↔
        b.toE ≤ a.toE) ∧
     ((ieee754_signaling_not_equal_f (.fin a) (.fin b) st).1 = 1 ↔
        ¬ a.toE = b.toE)) := by
  simp [ieee754_signaling_equal, ieee754_signaling_less,
    ieee754_signaling_less_equal, ieee754_signaling_greater,
    ieee754_signaling_greater_equal, ieee754_signaling_not_equal,
    ieee754_signaling_equal_f, ieee754_signaling_less_f,
    ieee754_signaling_less_equal_f, ieee754_signaling_greater_f,
    ieee754_signaling_greater_equal_f, ieee754_signaling_not_equal_f,
    FP.isnan, FP.c_eq, FP.c_lt, FP.c_le, FP.c_gt, FP.c_ge, FP.c_ne,
    ite_int_eq_one, FPNum.c_eq_iff_toE, FPNum.c_lt_iff_toE,
    FPNum.c_le_iff_toE, FPNum.c_eq_false_iff_toE]

/-- C9: the software store is keyed per thread: any raise, clear or clear-all
performed by thread `A` leaves thread `B`'s state (and hence every `test` by
`B`) exactly as it was, and symmetrically; in particular after `A` raises
`Overflow` on the fresh table, `B` still tests `Overflow` as 0. -/
theorem tls_flag_isolation (A B : Nat) (hAB : A ≠ B) (f : Int)
    (store : TLSStore) :
    get_thread_state B (raise_exception_at A f store) =
      get_thread_state B store ∧
    get_thread_state B (clear_exception_at A f store) =
      get_thread_state B store ∧
    get_thread_state B (clear_all_exceptions_at A store) =
      get_thread_state B store ∧
    get_thread_state A (raise_exception_at B f store) =
      get_thread_state A store ∧
    test_exception_at B IEEE754_EXCEPTION_OVERFLOW
        (raise_exception_at A IEEE754_EXCEPTION_OVERFLOW initialTLSStore)
      = 0 := by
  have hBA : B ≠ A := Ne.symm hAB
  simp [get_thread_state, raise_exception_at, clear_exception_at,
    clear_all_exceptions_at, test_exception_at, initialTLSStore,
    initialThreadState, ieee754_test_exception, IEEE754_EXCEPTION_INVALID,
    IEEE754_EXCEPTION_OVERFLOW, hAB, hBA]

/-- C9 witness: threads 0 and 1 on the fresh table. -/
theorem tls_flag_isolation_witness :
    (0 : Nat) ≠ 1 ∧
    (get_thread_state 1 (raise_exception_at 0 2 initialTLSStore) =
       get_thread_state 1 initialTLSStore ∧
     get_thread_state 1 (clear_exception_at 0 2 initialTLSStore) =
       get_thread_state 1 initialTLSStore ∧
     get_thread_state 1 (clear_all_exceptions_at 0 initialTLSStore) =
       get_thread_state 1 initialTLSStore ∧
     get_thread_state 0 (raise_exception_at 1 2 initialTLSStore) =
       get_thread_state 0 initialTLSStore ∧
     test_exception_at 1 IEEE754_EXCEPTION_OVERFLOW
        (raise_exception_at 0 IEEE754_EXCEPTION_OVERFLOW initialTLSStore)
       = 0) :=
  ⟨by decide, tls_flag_isolation 0 1 (by decide) 2 initialTLSStore⟩

end CIEEE754
